import Mathlib

/-!
Shallow embedding of the client-side view-state controller of the QRPO
dashboard, translated from `src/frontend/pages/index.tsx` and
`src/frontend/pages/dashboard.tsx`.  React `useState` fields become the
fields of an explicit state record, each handler becomes a function from
state to state, and each asynchronous `run*` operation is split into a
start transition (what happens synchronously at the trigger) and a
completion transition (what the continuation does when the response or
failure arrives on the event loop).
-/

namespace QRPO

/-- Response payloads stored in result slots.  In the source every slot is
untyped JSON (`useState<any>`); the view-state code never inspects the
payload (the one branch on response contents, in `runStockAnalysis`, is
modelled by the `Outcome` type below), so any type with decidable equality
is a faithful carrier.  The constructors cover the shapes the spec
scenarios mention: a classical-optimization response
`\x7bweights, objective\x7d`, an error marker `\x7berror: msg\x7d` as stored by the
dashboard catch blocks, and a generic opaque response. -/
inductive Resp where
  | classicalR (weights : List ℚ) (objective : ℚ)
  | err (msg : String)
  | raw (tag : String)
  deriving DecidableEq, Repr

/-- The component state of `Home` in `src/frontend/pages/index.tsx`
(lines 31-47): the result slots, the shared loading flag (a string naming
the in-flight kind, `''` when idle), the simulation loading boolean, the
open-tab list, the active tab (`''` for none), and the sidebar
expanded-sections record (modelled as a total function, absent keys
reading `false`, matching JavaScript `undefined` being falsy). -/
structure UiState where
  openTabs : List String
  activeTab : String
  expanded : String → Bool
  fftStats : Option Resp
  classical : Option Resp
  quantum : Option Resp
  quantumState : Option Resp
  rfResult : Option Resp
  simData : Option Resp
  loading : String
  loadingSim : Bool

/-- Initial `expanded` record of `index.tsx` line 47:
`\x7b signals: true, strategies: true, ml: true, visualizations: true \x7d`. -/
def initExpanded : String → Bool := fun x =>
  x = "signals" || x = "strategies" || x = "ml" || x = "visualizations"

/-- Initial state of the dashboard component: no open tabs, no active tab,
empty result slots, idle loading flags. -/
def initState : UiState :=
  { openTabs := []
    activeTab := ""
    expanded := initExpanded
    fftStats := none
    classical := none
    quantum := none
    quantumState := none
    rfResult := none
    simData := none
    loading := ""
    loadingSim := false }

/-- `openTab` from `index.tsx` lines 66-69:
`if (!openTabs.includes(id)) setOpenTabs([...openTabs, id]); setActiveTab(id);`.
The dashboard variant (`dashboard.tsx` lines 33-38) is identical on these
fields; its extra `tabName` argument is unused. -/
def openTab (id : String) (s : UiState) : UiState :=
  { s with
    openTabs := if id ∈ s.openTabs then s.openTabs else s.openTabs ++ [id]
    activeTab := id }

/-- `closeTab` from `index.tsx` lines 70-74: `next` filters `id` out, and
if the closed tab was active the fallback is `next[next.length - 1] || ''`
(the last remaining tab, or the empty string when `next` is empty; when
the last element is itself `''` both sides agree on `''`).  The dashboard
variant (`dashboard.tsx` lines 40-46) computes the same value with an
explicit length test. -/
def closeTab (id : String) (s : UiState) : UiState :=
  let next := s.openTabs.filter (fun t => t != id)
  { s with
    openTabs := next
    activeTab := if s.activeTab = id then next.getLast?.getD "" else s.activeTab }

/-- `toggle` from `index.tsx` line 75:
`setExpanded(prev => (\x7b ...prev, [id]: !prev[id] \x7d))`. -/
def toggle (id : String) (s : UiState) : UiState :=
  { s with expanded := fun x => if x = id then !(s.expanded x) else s.expanded x }

/-- `toggleSection` from `dashboard.tsx` lines 48-54, where the expanded
sections are kept as a list of ids: remove the id when present, append it
when absent. -/
def toggleSection (id : String) (l : List String) : List String :=
  if id ∈ l then l.filter (fun t => t != id) else l ++ [id]

/-- One user-tab event: a call to `openTab` or to `closeTab`. -/
inductive TabEvent where
  | openE (id : String)
  | closeE (id : String)

/-- Apply one tab event to the state. -/
def stepTab : TabEvent → UiState → UiState
  | TabEvent.openE id, s => openTab id s
  | TabEvent.closeE id, s => closeTab id s

/-- Run a sequence of `openTab`/`closeTab` calls from a state. -/
def runTabs : List TabEvent → UiState → UiState
  | [], s => s
  | e :: evs, s => runTabs evs (stepTab e s)

/-- The analysis kinds of `index.tsx` that share the string loading flag
and open a tab on success: `runFFT`, `runClassical`, `runQuantum`,
`runStockAnalysis` (lines 81-147). -/
inductive Kind where
  | fft
  | classical
  | quantum
  | stock
  deriving DecidableEq

/-- The loading-flag value each operation sets (`setLoading('fft')`, ...). -/
def Kind.loadingKey : Kind → String
  | Kind.fft => "fft"
  | Kind.classical => "classical"
  | Kind.quantum => "quantum"
  | Kind.stock => "stock"

/-- The tab each operation opens on success (`openTab('signals')`, ...). -/
def Kind.tabId : Kind → String
  | Kind.fft => "signals"
  | Kind.classical => "classical"
  | Kind.quantum => "quantum"
  | Kind.stock => "stock"

/-- The result slot each operation writes (`setFftStats`, `setClassical`,
`setQuantum`, `setRfResult`). -/
def getSlot : Kind → UiState → Option Resp
  | Kind.fft, s => s.fftStats
  | Kind.classical, s => s.classical
  | Kind.quantum, s => s.quantum
  | Kind.stock, s => s.rfResult

/-- Write the result slot of a kind. -/
def setSlot : Kind → Option Resp → UiState → UiState
  | Kind.fft, v, s => { s with fftStats := v }
  | Kind.classical, v, s => { s with classical := v }
  | Kind.quantum, v, s => { s with quantum := v }
  | Kind.stock, v, s => { s with rfResult := v }

/-- How one request terminates, as observed by the continuation in
`index.tsx`: `success p` is a resolved fetch whose parsed body is accepted
(for `runStockAnalysis`: `res.ok` and no `data.error` field); `appError p`
is a resolved fetch that `runStockAnalysis` rejects at line 139
(`!res.ok || data.error`); `netFail` is a rejected fetch or a JSON-parse
throw. -/
inductive Outcome where
  | success (p : Resp)
  | appError (p : Resp)
  | netFail

/-- Synchronous part of a `run*` operation in `index.tsx`: it sets the
loading flag unconditionally (there is no guard on `loading`) and issues
the request. -/
def runStart (k : Kind) (s : UiState) : UiState :=
  { s with loading := k.loadingKey }

/-- Continuation of a `run*` operation in `index.tsx` when its response or
failure arrives.  On success: store the parsed body in the slot, open the
tab, then the `finally` clears the loading flag.  `runFFT`, `runClassical`
and `runQuantum` never check `res.ok`, so an application-level error body
is stored and the tab opened just the same; `runStockAnalysis` returns
early on `!res.ok || data.error` (line 139-142), storing nothing.  None of
the four has a `catch`: a rejected fetch leaves every slot unchanged and
only the `finally` clears the loading flag. -/
def runComplete (k : Kind) (o : Outcome) (s : UiState) : UiState :=
  match o with
  | Outcome.success p => { openTab k.tabId (setSlot k (some p) s) with loading := "" }
  | Outcome.appError p =>
    match k with
    | Kind.stock => { s with loading := "" }
    | _ => { openTab k.tabId (setSlot k (some p) s) with loading := "" }
  | Outcome.netFail => { s with loading := "" }

/-- A whole uninterleaved run: start, then completion. -/
def runIndex (k : Kind) (o : Outcome) (s : UiState) : UiState :=
  runComplete k o (runStart k s)

/-- The analysis kinds of `dashboard.tsx` (lines 71-150): `runFFT`,
`runClassical`, `runQuantum`.  There the tab is opened by the button
`onClick` at trigger time, not by the operation. -/
inductive DKind where
  | dfft
  | dclassical
  | dquantum
  deriving DecidableEq

/-- Loading-flag value of each dashboard operation. -/
def DKind.loadingKey : DKind → String
  | DKind.dfft => "fft"
  | DKind.dclassical => "classical"
  | DKind.dquantum => "quantum"

/-- Tab id the dashboard button `onClick` opens alongside each operation
(`dashboard.tsx` lines 257-301). -/
def DKind.tabId : DKind → String
  | DKind.dfft => "signals"
  | DKind.dclassical => "classical"
  | DKind.dquantum => "quantum"

/-- Result slot read for a dashboard kind. -/
def getDSlot : DKind → UiState → Option Resp
  | DKind.dfft, s => s.fftStats
  | DKind.dclassical, s => s.classical
  | DKind.dquantum, s => s.quantum

/-- Result slot written for a dashboard kind. -/
def setDSlot : DKind → Option Resp → UiState → UiState
  | DKind.dfft, v, s => { s with fftStats := v }
  | DKind.dclassical, v, s => { s with classical := v }
  | DKind.dquantum, v, s => { s with quantum := v }

/-- Request termination as observed by a `dashboard.tsx` continuation:
either a parsed success body, or a failure (rejected fetch or a thrown
`HTTP error! status: ...`), which the `catch` turns into a stored
`\x7b error: message \x7d` marker. -/
inductive DOutcome where
  | success (p : Resp)
  | failure (msg : String)

/-- Synchronous part of a dashboard `run*` operation. -/
def dashStart (k : DKind) (s : UiState) : UiState :=
  { s with loading := k.loadingKey }

/-- Continuation of a dashboard `run*` operation: the `try` stores the
parsed body, the `catch` stores the error marker, the `finally` clears the
loading flag (`dashboard.tsx` lines 71-150). -/
def dashComplete (k : DKind) (o : DOutcome) (s : UiState) : UiState :=
  match o with
  | DOutcome.success p => setDSlot k (some p) { s with loading := "" }
  | DOutcome.failure m => setDSlot k (some (Resp.err m)) { s with loading := "" }

/-- A whole uninterleaved dashboard run: start, then completion. -/
def dashRun (k : DKind) (o : DOutcome) (s : UiState) : UiState :=
  dashComplete k o (dashStart k s)

/-- The concrete classical-optimization payload of the spec scenario:
`\x7bweights:[0.5,0.5,0,0], objective:0.08\x7d`. -/
def demoPayload : Resp :=
  Resp.classicalR [1/2, 1/2, 0, 0] (8/100)

lemma self_mem_openTab (id : String) (s : UiState) : id ∈ (openTab id s).openTabs := by
  by_cases h : id ∈ s.openTabs <;> simp [openTab, h]

lemma mem_filter_ne (l : List String) (id x : String) :
    x ∈ l.filter (fun t => t != id) ↔ x ∈ l ∧ x ≠ id := by
  simp [List.mem_filter]

lemma not_mem_filter_ne (l : List String) (id : String) :
    id ∉ l.filter (fun t => t != id) := by
  simp [List.mem_filter]

/-- Claim C6: `openTab(id)` leaves the open-tab list unchanged when `id`
is already present, appends `id` at the end when it is absent, always
marks `id` active (so `id` is open afterwards in both cases), and is a
total function (no error conditions).  The spec scenario holds: from
empty tabs, `openTab("signals")` yields `["signals"]` with active
`"signals"`. -/
theorem c6_openTab_spec :
    (∀ (s : UiState) (id : String), id ∈ s.openTabs → (openTab id s).openTabs = s.openTabs)
    ∧ (∀ (s : UiState) (id : String), id ∉ s.openTabs →
        (openTab id s).openTabs = s.openTabs ++ [id])
    ∧ (∀ (s : UiState) (id : String), (openTab id s).activeTab = id)
    ∧ (∀ (s : UiState) (id : String), id ∈ (openTab id s).openTabs)
    ∧ (openTab "signals" initState).openTabs = ["signals"]
    ∧ (openTab "signals" initState).activeTab = "signals" := by
  refine ⟨?_, ?_, ?_, ?_, ?_, ?_⟩
  · intro s id h; simp [openTab, h]
  · intro s id h; simp [openTab, h]
  · intro s id; rfl
  · intro s id; exact self_mem_openTab id s
  · decide
  · rfl

/-- Witness for C6 at a concrete input: opening an already-open tab leaves
the list unchanged. -/
theorem c6_witness :
    (openTab "a" { initState with openTabs := ["a"] }).openTabs = ["a"] :=
  c6_openTab_spec.1 { initState with openTabs := ["a"] } "a" (by decide)

/-- Claim C7: `toggle` (index.tsx line 75) is its own inverse on the
expanded record, a single application flips exactly the given section and
no other, and it touches no other state field (purely local, no backend
interaction is possible: it is a pure function of the UI state).  The
list-based `toggleSection` of dashboard.tsx lines 48-54 is likewise an
involution at the level of which sections are expanded (membership). -/
theorem c7_toggle_involutive :
    (∀ (s : UiState) (id : String), (toggle id (toggle id s)).expanded = s.expanded)
    ∧ (∀ (s : UiState) (id : String), (toggle id s).expanded id = !(s.expanded id))
    ∧ (∀ (s : UiState) (id x : String), x ≠ id → (toggle id s).expanded x = s.expanded x)
    ∧ (∀ (s : UiState) (id : String),
        (toggle id s).openTabs = s.openTabs ∧ (toggle id s).activeTab = s.activeTab
        ∧ (toggle id s).fftStats = s.fftStats ∧ (toggle id s).classical = s.classical
        ∧ (toggle id s).quantum = s.quantum ∧ (toggle id s).rfResult = s.rfResult
        ∧ (toggle id s).simData = s.simData ∧ (toggle id s).loading = s.loading)
    ∧ (∀ (l : List String) (id x : String),
        x ∈ toggleSection id (toggleSection id l) ↔ x ∈ l) := by
  refine ⟨?_, ?_, ?_, ?_, ?_⟩
  · intro s id
    funext x
    by_cases h : x = id <;> simp [toggle, h]
  · intro s id; simp [toggle]
  · intro s id x h; simp [toggle, h]
  · intro s id; exact ⟨rfl, rfl, rfl, rfl, rfl, rfl, rfl, rfl⟩
  · intro l id x
    by_cases hm : id ∈ l
    · have hnot : id ∉ l.filter (fun t => t != id) := not_mem_filter_ne l id
      by_cases hx : x = id
      · subst hx
        simp [toggleSection, hm, hnot, List.mem_filter]
      · simp [toggleSection, hm, hnot, List.mem_filter, hx]
    · have hmem : id ∈ l ++ [id] := by simp
      by_cases hx : x = id
      · subst hx
        simp [toggleSection, hm, hmem, List.mem_filter]
      · simp [toggleSection, hm, hmem, List.mem_filter, hx]

/-- Witness for C7 at a concrete input: toggling `"signals"` leaves the
`"ml"` section untouched. -/
theorem c7_witness :
    (toggle "signals" initState).expanded "ml" = initState.expanded "ml" :=
  c7_toggle_involutive.2.2.1 initState "signals" "ml" (by decide)

/-- Claim C8: closing a tab that is open but not active leaves the active
tab unchanged (`closeTab` only reassigns `activeTab` inside the
`activeTab === id` branch). -/
theorem c8_close_nonactive_frame (s : UiState) (id : String)
    (hmem : id ∈ s.openTabs) (hact : s.activeTab ≠ id) :
    (closeTab id s).activeTab = s.activeTab := by
  simp [closeTab, hact]

/-- Witness for C8 at a concrete input: with open tabs `["a","b"]` and
active `"b"`, closing `"a"` keeps `"b"` active. -/
theorem c8_witness :
    (closeTab "a" { initState with openTabs := ["a", "b"], activeTab := "b" }).activeTab
      = "b" :=
  c8_close_nonactive_frame { initState with openTabs := ["a", "b"], activeTab := "b" }
    "a" (by decide) (by decide)

/-- Claim C9: `closeTab` only writes `openTabs` and `activeTab`, so every
result payload slot (fft, classical, quantum, stock, simulation, and the
quantum-state slot) is unchanged; reopening the tab afterwards with
`openTab` still leaves every slot unchanged, so the stale payload is
redisplayed unless a fresh fetch replaces it. -/
theorem c9_close_preserves_results (s : UiState) (id : String) :
    (closeTab id s).fftStats = s.fftStats
    ∧ (closeTab id s).classical = s.classical
    ∧ (closeTab id s).quantum = s.quantum
    ∧ (closeTab id s).rfResult = s.rfResult
    ∧ (closeTab id s).simData = s.simData
    ∧ (closeTab id s).quantumState = s.quantumState
    ∧ (openTab id (closeTab id s)).fftStats = s.fftStats
    ∧ (openTab id (closeTab id s)).classical = s.classical
    ∧ (openTab id (closeTab id s)).quantum = s.quantum
    ∧ (openTab id (closeTab id s)).rfResult = s.rfResult
    ∧ (openTab id (closeTab id s)).simData = s.simData
    ∧ (openTab id (closeTab id s)).quantumState = s.quantumState :=
  ⟨rfl, rfl, rfl, rfl, rfl, rfl, rfl, rfl, rfl, rfl, rfl, rfl⟩

/-- Safety relation between the active tab and the open-tab list. -/
def activeOk (s : UiState) : Prop :=
  s.activeTab ∈ s.openTabs ∨ (s.openTabs = [] ∧ s.activeTab = "")

lemma activeOk_openTab (id : String) (s : UiState) : activeOk (openTab id s) :=
  Or.inl (self_mem_openTab id s)

lemma closeTab_active_of_ne (id : String) (s : UiState) (hact : s.activeTab ≠ id) :
    (closeTab id s).activeTab = s.activeTab := by
  simp [closeTab, hact]

lemma activeOk_closeTab (id : String) (s : UiState) (h : activeOk s) :
    activeOk (closeTab id s) := by
  by_cases hact : s.activeTab = id
  · rcases hl : (s.openTabs.filter (fun t => t != id)).getLast? with _ | t
    · right
      refine ⟨List.getLast?_eq_none_iff.mp hl, ?_⟩
      simp [closeTab, hact, hl]
    · left
      have ht : t ∈ s.openTabs.filter (fun t => t != id) := by
        obtain ⟨hne, he⟩ := List.mem_getLast?_eq_getLast (Option.mem_def.mpr hl)
        exact he ▸ List.getLast_mem hne
      simpa [closeTab, hact, hl] using ht
  · rcases h with hm | ⟨he, ha⟩
    · left
      simp only [closeTab]
      simp only [hact, if_false]
      exact (mem_filter_ne s.openTabs id s.activeTab).mpr ⟨hm, hact⟩
    · right
      exact ⟨by simp [closeTab, he], (closeTab_active_of_ne id s hact).trans ha⟩

lemma activeOk_stepTab (e : TabEvent) (s : UiState) (h : activeOk s) :
    activeOk (stepTab e s) := by
  cases e with
  | openE id => exact activeOk_openTab id s
  | closeE id => exact activeOk_closeTab id s h

lemma activeOk_runTabs (evs : List TabEvent) (s : UiState) (h : activeOk s) :
    activeOk (runTabs evs s) := by
  induction evs generalizing s with
  | nil => exact h
  | cons e evs ih => exact ih (stepTab e s) (activeOk_stepTab e s h)

/-- Claim C1: after any sequence of `openTab`/`closeTab` calls from the
initial state (no open tabs, active tab `""`), the active tab is the empty
string whenever the open-tab list is empty, and a member of the open-tab
list whenever the list is nonempty. -/
theorem c1_active_tab_invariant (evs : List TabEvent) :
    ((runTabs evs initState).openTabs = [] → (runTabs evs initState).activeTab = "")
    ∧ ((runTabs evs initState).openTabs ≠ [] →
        (runTabs evs initState).activeTab ∈ (runTabs evs initState).openTabs) := by
  have h := activeOk_runTabs evs initState (Or.inr ⟨rfl, rfl⟩)
  constructor
  · intro he
    rcases h with hm | ⟨_, ha⟩
    · rw [he] at hm
      cases hm
    · exact ha
  · intro hne
    rcases h with hm | ⟨he, _⟩
    · exact hm
    · exact absurd he hne

/-- Witness for C1 at a concrete call sequence: after opening `"a"` and
`"b"` and closing `"b"`, the active tab is a member of the open list. -/
theorem c1_witness :
    (runTabs [TabEvent.openE "a", TabEvent.openE "b", TabEvent.closeE "b"] initState).activeTab
      ∈ (runTabs [TabEvent.openE "a", TabEvent.openE "b", TabEvent.closeE "b"]
          initState).openTabs :=
  (c1_active_tab_invariant [TabEvent.openE "a", TabEvent.openE "b", TabEvent.closeE "b"]).2
    (by decide)

lemma nodup_stepTab (e : TabEvent) (s : UiState) (h : s.openTabs.Nodup) :
    (stepTab e s).openTabs.Nodup := by
  cases e with
  | openE id =>
    by_cases hm : id ∈ s.openTabs
    · simpa [stepTab, openTab, hm] using h
    · simp [stepTab, openTab, hm, List.nodup_append]
      exact h
  | closeE id =>
    exact List.Nodup.filter _ h

lemma nodup_runTabs (evs : List TabEvent) (s : UiState) (h : s.openTabs.Nodup) :
    (runTabs evs s).openTabs.Nodup := by
  induction evs generalizing s with
  | nil => exact h
  | cons e evs ih => exact ih (stepTab e s) (nodup_stepTab e s h)

/-- Claim C10: from the empty initial state, every `openTab`/`closeTab`
sequence keeps the open-tab list duplicate-free, and the list stays in
first-opened order because `openTab` appends a fresh id at the end (and
does nothing to the list for a known id) while `closeTab` removes exactly
the given id, keeping the remaining tabs in relative order (the result is
a sublist of the previous list). -/
theorem c10_open_list_order (evs : List TabEvent) :
    (runTabs evs initState).openTabs.Nodup
    ∧ (∀ (s : UiState) (id : String), id ∉ s.openTabs →
        (openTab id s).openTabs = s.openTabs ++ [id])
    ∧ (∀ (s : UiState) (id : String), id ∈ s.openTabs →
        (openTab id s).openTabs = s.openTabs)
    ∧ (∀ (s : UiState) (id x : String),
        x ∈ (closeTab id s).openTabs ↔ x ∈ s.openTabs ∧ x ≠ id)
    ∧ (∀ (s : UiState) (id : String), (closeTab id s).openTabs.Sublist s.openTabs) := by
  refine ⟨nodup_runTabs evs initState List.nodup_nil, ?_, ?_, ?_, ?_⟩
  · intro s id h; simp [openTab, h]
  · intro s id h; simp [openTab, h]
  · intro s id x; exact mem_filter_ne s.openTabs id x
  · intro s id; exact List.filter_sublist s.openTabs

/-- Witness for C10 at a concrete input: opening the fresh tab `"b"` after
`"a"` appends it at the end. -/
theorem c10_witness :
    (openTab "b" { initState with openTabs := ["a"] }).openTabs = ["a"] ++ ["b"] :=
  (c10_open_list_order []).2.1 { initState with openTabs := ["a"] } "b" (by decide)

/-- State with open tabs `["a","b","c"]` and active tab `"a"`, reachable
from the initial state by `openTab("a")`, `openTab("b")`, `openTab("c")`,
`openTab("a")`. -/
def threeTabState : UiState :=
  { initState with openTabs := ["a", "b", "c"], activeTab := "a" }

/-- State of the spec scenario: open tabs `["a","b"]`, active `"b"`. -/
def twoTabState : UiState :=
  { initState with openTabs := ["a", "b"], activeTab := "b" }

/-- Counterexample to Claim C2 as stated: with open tabs `["a","b","c"]`
and active tab `"a"`, `closeTab("a")` leaves the remaining tabs
`["b","c"]` and activates `"c"` — the last remaining tab — not the
previous-to-last remaining tab `"b"` that the claim predicts.  The state
is reachable: it results from opening `"a"`, `"b"`, `"c"` and then
re-opening `"a"`. -/
theorem c2_counterexample :
    (runTabs [TabEvent.openE "a", TabEvent.openE "b", TabEvent.openE "c",
      TabEvent.openE "a"] initState).openTabs = threeTabState.openTabs
    ∧ (runTabs [TabEvent.openE "a", TabEvent.openE "b", TabEvent.openE "c",
      TabEvent.openE "a"] initState).activeTab = threeTabState.activeTab
    ∧ (closeTab "a" threeTabState).openTabs = ["b", "c"]
    ∧ (closeTab "a" threeTabState).activeTab = "c"
    ∧ (closeTab "a" threeTabState).activeTab ≠ "b" := by
  refine ⟨by decide, by decide, by decide, by decide, by decide⟩

/-- Claim C2 as amended: `closeTab(id)` removes exactly `id` from the
open-tab list, and if `id` was the active tab the active tab becomes the
last (most recently opened) remaining open tab, or `""` when the list
becomes empty.  The spec scenario is unchanged: from open tabs `["a","b"]`
with active `"b"`, `closeTab("b")` yields `["a"]` with active `"a"`. -/
theorem c2_amended_closeTab (s : UiState) (id : String) :
    id ∉ (closeTab id s).openTabs
    ∧ (∀ x, x ∈ (closeTab id s).openTabs ↔ x ∈ s.openTabs ∧ x ≠ id)
    ∧ (s.activeTab = id → ∀ h : (closeTab id s).openTabs ≠ [],
        (closeTab id s).activeTab = (closeTab id s).openTabs.getLast h)
    ∧ (s.activeTab = id → (closeTab id s).openTabs = [] → (closeTab id s).activeTab = "")
    ∧ (closeTab "b" twoTabState).openTabs = ["a"]
    ∧ (closeTab "b" twoTabState).activeTab = "a" := by
  refine ⟨not_mem_filter_ne s.openTabs id, fun x => mem_filter_ne s.openTabs id x,
    ?_, ?_, by decide, by decide⟩
  · intro hact h
    have h0 : (s.openTabs.filter (fun t => t != id)) ≠ [] := h
    show (if s.activeTab = id then
        (s.openTabs.filter (fun t => t != id)).getLast?.getD "" else s.activeTab)
      = (s.openTabs.filter (fun t => t != id)).getLast h
    rw [if_pos hact, List.getLast?_eq_getLast_of_ne_nil h0, Option.getD_some]
  · intro hact h
    have h0 : (s.openTabs.filter (fun t => t != id)) = [] := h
    simp [closeTab, hact, h0]

/-- Witness for the amended C2 at the spec scenario input: closing the
active tab `"b"` of `["a","b"]` activates the last remaining tab. -/
theorem c2_witness :
    (closeTab "b" twoTabState).activeTab
      = (closeTab "b" twoTabState).openTabs.getLast (by decide) :=
  (c2_amended_closeTab twoTabState "b").2.2.1 rfl (by decide)

/-- Claim C3: each `run*` analysis operation of `index.tsx` that belongs
to the shared loading-flag family (fft, classical, quantum, stock) sets
the loading flag for its kind at the trigger, and on successful completion
stores the parsed response in its result slot, clears the loading flag,
and opens (and activates) its tab.  In particular the spec scenario holds:
a classical run resolving with `\x7bweights:[0.5,0.5,0,0], objective:0.08\x7d`
leaves that payload in the classical slot with `"classical"` among the
open tabs.  In the `dashboard.tsx` variant the tab is opened by the button
`onClick` at trigger time rather than by the completion, with the same
end-to-end postcondition: payload stored, tab open, loading cleared.
(`runSimulation` is outside this family: it uses the separate
`loadingSim` boolean and has no tab of its own.) -/
theorem c3_runAnalysis_success (s : UiState) (k : Kind) (dk : DKind) (p : Resp) :
    (runStart k s).loading = k.loadingKey
    ∧ getSlot k (runIndex k (Outcome.success p) s) = some p
    ∧ (runIndex k (Outcome.success p) s).loading = ""
    ∧ k.tabId ∈ (runIndex k (Outcome.success p) s).openTabs
    ∧ (runIndex k (Outcome.success p) s).activeTab = k.tabId
    ∧ getSlot Kind.classical (runIndex Kind.classical (Outcome.success demoPayload) s)
      = some demoPayload
    ∧ "classical" ∈ (runIndex Kind.classical (Outcome.success demoPayload) s).openTabs
    ∧ getDSlot dk (dashComplete dk (DOutcome.success p) (openTab dk.tabId (dashStart dk s)))
      = some p
    ∧ dk.tabId
      ∈ (dashComplete dk (DOutcome.success p) (openTab dk.tabId (dashStart dk s))).openTabs
    ∧ (dashComplete dk (DOutcome.success p) (openTab dk.tabId (dashStart dk s))).loading
      = "" := by
  refine ⟨rfl, ?_, rfl, ?_, rfl, rfl, ?_, ?_, ?_, ?_⟩
  · cases k <;> rfl
  · exact self_mem_openTab k.tabId (setSlot k (some p) (runStart k s))
  · exact self_mem_openTab "classical"
      (setSlot Kind.classical (some demoPayload) (runStart Kind.classical s))
  · cases dk <;> rfl
  · cases dk <;> exact self_mem_openTab _ _
  · cases dk <;> rfl

/-- Counterexample to Claim C4 as stated: in `index.tsx` the `run*`
operations have no `catch`, so when the fetch fails the result slot is
left unchanged — no error marker is stored.  Concretely, running the fft
analysis from the initial state and failing leaves `fftStats` equal to
`none` (in particular not an error marker) while the `finally` clears the
loading flag. -/
theorem c4_counterexample :
    (runIndex Kind.fft Outcome.netFail initState).fftStats = none
    ∧ (runIndex Kind.fft Outcome.netFail initState).loading = "" :=
  ⟨rfl, rfl⟩

/-- Claim C4 as amended: in the `dashboard.tsx` variant a failed fetch
stores an error marker in the corresponding result slot and clears the
loading flag; in the `index.tsx` variant a failed fetch clears the loading
flag but leaves every result slot unchanged (the failure surfaces as an
alert or unhandled rejection, not as a stored marker).  In both variants
no failure mutates any other state, so the dashboard remains usable. -/
theorem c4_amended_error_handling (s : UiState) (k : DKind) (m : String) (ki : Kind) :
    getDSlot k (dashRun k (DOutcome.failure m) s) = some (Resp.err m)
    ∧ (dashRun k (DOutcome.failure m) s).loading = ""
    ∧ (runIndex ki Outcome.netFail s).loading = ""
    ∧ (runIndex ki Outcome.netFail s).fftStats = s.fftStats
    ∧ (runIndex ki Outcome.netFail s).classical = s.classical
    ∧ (runIndex ki Outcome.netFail s).quantum = s.quantum
    ∧ (runIndex ki Outcome.netFail s).rfResult = s.rfResult
    ∧ (runIndex ki Outcome.netFail s).simData = s.simData
    ∧ (runIndex ki Outcome.netFail s).openTabs = s.openTabs
    ∧ (runIndex ki Outcome.netFail s).activeTab = s.activeTab := by
  cases k <;> exact ⟨rfl, rfl, rfl, rfl, rfl, rfl, rfl, rfl, rfl, rfl⟩

/-- Claim C5: triggering a classical run while its loading flag is already
`"classical"` still runs (the start transition is unguarded and sets the
flag again), and when two responses for the same kind both complete, the
one applied later overwrites the result slot in either order — last write
wins.  The final conjunct is the absence of any generation-counter or
cancellation guard: a completion stores its payload unconditionally, from
every intermediate state. -/
theorem c5_last_write_wins (s : UiState) (p₁ p₂ : Resp) (h : s.loading = "classical") :
    (runStart Kind.classical s).loading = "classical"
    ∧ (runComplete Kind.classical (Outcome.success p₂)
        (runComplete Kind.classical (Outcome.success p₁)
          (runStart Kind.classical s))).classical = some p₂
    ∧ (runComplete Kind.classical (Outcome.success p₁)
        (runComplete Kind.classical (Outcome.success p₂)
          (runStart Kind.classical s))).classical = some p₁
    ∧ (∀ (t : UiState) (q : Resp),
        (runComplete Kind.classical (Outcome.success q) t).classical = some q) :=
  ⟨rfl, rfl, rfl, fun _ _ => rfl⟩

/-- Witness for C5 at a concrete input: with the loading flag already
`"classical"`, a retriggered run whose stale response lands first and
fresh response lands last leaves the fresh payload in the slot. -/
theorem c5_witness :
    (runComplete Kind.classical (Outcome.success (Resp.raw "late"))
      (runComplete Kind.classical (Outcome.success (Resp.raw "early"))
        (runStart Kind.classical { initState with loading := "classical" }))).classical
      = some (Resp.raw "late") :=
  (c5_last_write_wins { initState with loading := "classical" }
    (Resp.raw "early") (Resp.raw "late") rfl).2.1

end QRPO
